import Mathlib

/-!
Shallow embedding of the real-time voice-test core of the Uternity web client.

Sources embedded here:
* `src/web/js/services/audio-capture.js` — `AudioCaptureService` (microphone
  chunk pipeline) and `VoiceAgentWebSocket` (duplex connection with
  authentication handshake, heartbeat, exponential-backoff reconnection,
  event system).
* `src/web/js/stores/sessionStore.js` — `SessionStore` (the test-session
  coordinator: session creation, task progression, response submission,
  scoring).

Modelling conventions: JavaScript booleans become `Bool`; optional / nullable
values become `Option`; a thrown-and-caught error becomes an explicit
failure value; external API and socket outcomes (success flags, returned
identifiers, inbound messages) are passed in as parameters; wall-clock
fields (`startTime`, `endTime`, `lastHeartbeatAt`) and pure log output are
outside the model except where a claim is about a recorded warning, in which
case warnings are collected in an explicit list.  All definitions are
computable and all state records derive decidable equality so that concrete
runs evaluate by `decide`.
-/

/-! ## VoiceAgentWebSocket (src/web/js/services/audio-capture.js, lines 190-606) -/

/-- WS_CONFIG.MAX_RECONNECT_ATTEMPTS (source line 202). -/
def MAX_RECONNECT_ATTEMPTS : Nat := 5

/-- WS_CONFIG.RECONNECT_DELAY in milliseconds (source line 203); this is the
`reconnectDelay` base used by `attemptReconnect`. -/
def RECONNECT_DELAY : Nat := 1000

/-- WS_CONFIG.AUTH_TIMEOUT in milliseconds (source line 204): the handshake
wait bound used by `authenticate`. -/
def AUTH_TIMEOUT : Nat := 10000

/-- The mutable fields of `VoiceAgentWebSocket` that the claims are about
(constructor, source lines 209-220).  `socketPresent` models
`this.socket !== null`; the heartbeat timer handle is not modelled. -/
structure WSState where
  socketPresent : Bool
  isConnected : Bool
  isAuthenticated : Bool
  reconnectAttempts : Nat
  sessionId : Option String
  userId : Option String
deriving DecidableEq, Repr

/-- Outbound stream messages built by the source.  `audioChunkCapture` is the
shape built by `AudioCaptureService.handleAudioChunk` (lines 133-141: fields
`session_id` and `data.{audio, timestamp, format}`, with no chunk identifier);
`audioChunkWs` is the shape built by `VoiceAgentWebSocket.sendAudioChunk`
(lines 487-494: fields `data.{chunk_id, audio_buffer, timestamp}`). -/
inductive OutMsg
  | auth (token : String) (session_id : Option String)
  | ping (timestamp : Nat)
  | audioChunkCapture (session_id : String) (audio : String) (timestamp : Nat) (format : String)
  | audioChunkWs (chunk_id : String) (audio_buffer : String) (timestamp : Nat)
deriving DecidableEq, Repr

/-- `VoiceAgentWebSocket.send` (lines 373-388).  Returns the success flag, the
list of messages actually written to the socket, and the console warnings
produced.  The guard is exactly the source's `!this.isConnected || !this.socket`;
note that it does not consult `isAuthenticated`.  Serialization of the modelled
messages cannot fail, so the source's catch-and-return-false branch is
unreachable here; that the function is total models "never throws". -/
def send (s : WSState) (m : OutMsg) : Bool × List OutMsg × List String :=
  if !s.isConnected || !s.socketPresent then
    (false, [], ["Cannot send message - WebSocket not connected"])
  else
    (true, [m], [])

/-- `VoiceAgentWebSocket.sendAudioChunk` (lines 476-497).  The default chunk
identifier is the source's template string `chunk_${Date.now()}`; the
capture time `now` is passed in for `Date.now()`.  The function returns
`true` unconditionally after calling `send`, exactly as the source does. -/
def sendAudioChunk (s : WSState) (audioData : String) (chunkId : Option String)
    (now : Nat) : Bool × List OutMsg × List String :=
  if !s.isAuthenticated then
    (false, [], ["Cannot send audio chunk - not authenticated"])
  else
    let cid := chunkId.getD ("chunk_" ++ Nat.repr now)
    let r := send s (.audioChunkWs cid audioData now)
    (true, r.2.1, r.2.2)

/-- `AudioCaptureService.handleAudioChunk` (lines 122-157) with a
`VoiceAgentWebSocket` wrapper bound as `this.websocket` (or none bound).
With no websocket bound the source returns early with no output at all.
With the wrapper bound, `this.websocket.readyState` is `undefined` (the
wrapper is not a raw `WebSocket`), so the `typeof this.websocket.send ===
'function'` branch runs and the message goes through the wrapper's `send`.
The message shape (lines 133-141) has `session_id: 'current-session'` and no
chunk identifier.  Returns (messages written to the socket, warnings). -/
def handleAudioChunk (websocket : Option WSState) (audio : String) (now : Nat)
    (format : String) : List OutMsg × List String :=
  match websocket with
  | none => ([], [])
  | some s =>
      let r := send s (.audioChunkCapture "current-session" audio now format)
      (r.2.1, r.2.2)

/-- One fixed-duration slice produced by the MediaRecorder
(`ondataavailable`, lines 86-90), carrying its capture time. -/
structure CapturedChunk where
  audio : String
  capturedAt : Nat
  format : String
deriving DecidableEq, Repr

/-- A recording's chunk sequence run through `handleAudioChunk` one chunk at a
time, in capture order, against a fixed bound connection.  Concatenates the
messages written and the warnings produced. -/
def processChunks (websocket : Option WSState) : List CapturedChunk → List OutMsg × List String
  | [] => ([], [])
  | c :: cs =>
      let r := handleAudioChunk websocket c.audio c.capturedAt c.format
      let rest := processChunks websocket cs
      (r.1 ++ rest.1, r.2 ++ rest.2)

/-- The chunk identifier carried by an outbound message: `sendAudioChunk`
messages carry one, `handleAudioChunk` (capture-pipeline) messages carry
none. -/
def msgChunkId : OutMsg → Option String
  | .audioChunkWs cid _ _ => some cid
  | _ => none

/-- Inbound handshake replies (source lines 336-348): `{type:'authenticated',
user_id}` or `{type:'auth_error', message}`. -/
inductive AuthReply
  | authenticated (user_id : String)
  | authError (message : String)
deriving DecidableEq, Repr

/-- Outcome of `connect(sessionId, authToken)` as seen by its caller. -/
inductive ConnectOutcome
  | success
  | authFailed (message : String)
  | authTimeout
deriving DecidableEq, Repr

/-- `VoiceAgentWebSocket.connect` (lines 226-282) together with
`authenticate` (lines 328-367), on the path where the transport opens.
The `onopen` handler (lines 236-252) sets `isConnected = true` and
`reconnectAttempts = 0` and then runs `authenticate`, which sends the auth
message through `send`.  `reply` is the handshake reply arriving within the
`AUTH_TIMEOUT` window, or `none` when neither an `authenticated` nor an
`auth_error` message arrives in time, in which case the timeout callback
(lines 360-365) rejects with "Authentication timeout".  No branch of this
path closes the socket or schedules a reconnect.  Returns (outcome,
post-state, messages written to the socket). -/
def connect (s : WSState) (sessionId : String) (authToken : String)
    (reply : Option AuthReply) : ConnectOutcome × WSState × List OutMsg :=
  let s1 : WSState :=
    { s with sessionId := some sessionId, socketPresent := true,
             isConnected := true, reconnectAttempts := 0 }
  let sent := (send s1 (.auth authToken (some sessionId))).2.1
  match reply with
  | some (.authenticated uid) =>
      (.success, { s1 with isAuthenticated := true, userId := some uid }, sent)
  | some (.authError m) => (.authFailed m, s1, sent)
  | none => (.authTimeout, s1, sent)

/-- `VoiceAgentWebSocket.disconnect` (lines 284-300): clean close; clears the
connection fields but leaves `reconnectAttempts` untouched. -/
def disconnect (s : WSState) : WSState :=
  { s with isConnected := false, isAuthenticated := false,
           sessionId := none, userId := none, socketPresent := false }

/-- The `onclose` handler (lines 258-269): clears `isConnected` and
`isAuthenticated`; returns the post-state together with whether
`attemptReconnect` is invoked, which requires a non-clean close and
`reconnectAttempts < maxReconnectAttempts`. -/
def onCloseStep (s : WSState) (wasClean : Bool) : WSState × Bool :=
  ({ s with isConnected := false, isAuthenticated := false },
   !wasClean && decide (s.reconnectAttempts < MAX_RECONNECT_ATTEMPTS))

/-- `VoiceAgentWebSocket.attemptReconnect` (lines 302-322), up to the point
where the timer is set: increments `reconnectAttempts` and computes
`delay = reconnectDelay * 2 ** (reconnectAttempts - 1)`.  Returns the
post-state and the scheduled delay. -/
def attemptReconnectStep (s : WSState) (base : Nat) : WSState × Nat :=
  let s1 := { s with reconnectAttempts := s.reconnectAttempts + 1 }
  (s1, base * 2 ^ (s1.reconnectAttempts - 1))

/-- The reconnection loop driven by consecutive failures, starting from
`reconnectAttempts = c`.  Each round models one `onclose` with
`wasClean = false` followed by `attemptReconnect`: when `c <
MAX_RECONNECT_ATTEMPTS` a delay of `base * 2 ^ ((c+1) - 1) = base * 2 ^ c`
is scheduled and the attempt runs.  `f` is the number of consecutive attempt
failures remaining: with `f = 0` the scheduled attempt succeeds (its `onopen`
resets the counter and no further rounds occur); with `f + 1` the attempt
fails, its catch (lines 313-319) emits `reconnectionFailed` exactly when the
incremented count has reached `MAX_RECONNECT_ATTEMPTS`, and its own
non-clean `onclose` re-enters the loop with the incremented count.  Returns
(delays scheduled, number of `reconnectionFailed` emissions). -/
def reconnectSeq (base : Nat) : Nat → Nat → List Nat × Nat
  | c, 0 =>
      if c < MAX_RECONNECT_ATTEMPTS then ([base * 2 ^ c], 0) else ([], 0)
  | c, f + 1 =>
      if c < MAX_RECONNECT_ATTEMPTS then
        let rest := reconnectSeq base (c + 1) f
        (base * 2 ^ c :: rest.1,
         (if MAX_RECONNECT_ATTEMPTS ≤ c + 1 then 1 else 0) + rest.2)
      else ([], 0)

/-- The spec's ConnectionState.status vocabulary (spec section 3). -/
inductive ConnStatus
  | disconnected
  | connecting
  | connected
  | authenticated
  | reconnecting
  | failed
deriving DecidableEq, Repr

/-- Modelled from the spec: the spec's data model (section 3) gives
ConnectionState a `status` field over {Disconnected, Connecting, Connected,
Authenticated, Reconnecting, Failed}; the source keeps only the booleans
`isConnected` / `isAuthenticated` (exposed by `getConnectionStatus`, lines
590-598) plus pending reconnect timers.  This maps the source state to the
spec's vocabulary: Authenticated when the handshake flag is set, Connected
when only the transport flag is set, Reconnecting when a reconnect timer is
pending, Disconnected otherwise. -/
def specConnStatus (s : WSState) (reconnectPending : Bool) : ConnStatus :=
  if s.isAuthenticated then .authenticated
  else if s.isConnected then .connected
  else if reconnectPending then .reconnecting
  else .disconnected

/-- A registered event handler for `VoiceAgentWebSocket.emit`.  The handler's
observable effect is a state transformation on `Nat` (an invocation counter /
effect accumulator); the `Bool` is whether the handler throws after its
effect.  The per-handler `try`/`catch` in the source swallows the throw. -/
def runListener (st : Nat) (h : Nat → Nat × Bool) : Nat := (h st).1

/-- `VoiceAgentWebSocket.emit` (lines 567-578): looks up the event's listener
list in `eventListeners` and runs every listener in order, each inside its
own `try`/`catch`, so a throwing listener neither stops later listeners nor
propagates to the emitter (the function is total). -/
def emit (eventListeners : List (String × List (Nat → Nat × Bool)))
    (event : String) (st : Nat) : Nat :=
  match eventListeners.lookup event with
  | none => st
  | some listeners => listeners.foldl runListener st

/-- `SessionStore.notifyListeners` (src/web/js/stores/sessionStore.js,
lines 470-478): runs every subscribed callback with `(event, data)` inside
its own try/catch; a callback's effect is modelled as in `runListener`,
with the event name as an extra argument. -/
def notifyListeners (sessionListeners : List (String → Nat → Nat × Bool))
    (event : String) (st : Nat) : Nat :=
  sessionListeners.foldl (fun acc cb => (cb event acc).1) st

/-! ## SessionStore (src/web/js/stores/sessionStore.js) -/

/-- The `testState.phase` values used by the source: `'preparation'`,
`'response'`, `'completed'`. -/
inductive Phase
  | preparation
  | response
  | completed
deriving DecidableEq, Repr

/-- The `testState.type` values: `'toefl'` or `'ielts'`. -/
inductive TType
  | toefl
  | ielts
deriving DecidableEq, Repr

/-- An entry of `testState.recordings` as pushed by `submitResponse`
(lines 299-305); the wall-clock `timestamp` and the caller-supplied
`duration` are outside the model. -/
structure Recording where
  task : Nat
  audioId : Option String
  transcription : Option String
deriving DecidableEq, Repr

/-- `this.testState` (constructor lines 21-33), restricted to modelled
fields; `feedback` and the wall-clock fields are outside the model. -/
structure TestState where
  ttype : Option TType
  mode : Option String
  currentTask : Nat
  totalTasks : Nat
  phase : Phase
  isRecording : Bool
  recordings : List Recording
  scores : Option Nat
deriving DecidableEq, Repr

/-- The `SessionStore` fields the claims are about.  `currentSession` holds
the session id; the cached `sessions` list and `websocketConnected` flag are
outside the model. -/
structure Store where
  currentSession : Option String
  testState : TestState
  error : Option String
  isLoading : Bool
deriving DecidableEq, Repr

/-- The external request/response API endpoints invoked by the store; each
invocation is recorded in a trace so that retry behaviour is observable.
`submitTask` covers `submitTOEFLResponse` / `submitIELTSResponse` and
`startTask` covers `startTOEFLTask` / `startIELTSPart` (the test type only
selects the endpoint name). -/
inductive ApiCall
  | createSession
  | uploadAudio
  | submitTask (task : Nat)
  | startTask (task : Nat)
  | getScore
deriving DecidableEq, Repr

/-- The source methods return `{success: true, ...}` or
`{success: false, error}`. -/
inductive SResult
  | success
  | failure (msg : String)
deriving DecidableEq, Repr

def SResult.isSuccess : SResult → Bool
  | .success => true
  | .failure _ => false

/-- Result of one store operation: the value returned to the caller, the
post-state, and the trace of external API calls made. -/
structure StoreStep where
  result : SResult
  store : Store
  calls : List ApiCall
deriving Repr

/-- The store as built by the `SessionStore` constructor (lines 12-33). -/
def emptyStore : Store :=
  { currentSession := none
    testState :=
      { ttype := none, mode := none, currentTask := 1, totalTasks := 4,
        phase := .preparation, isRecording := false, recordings := [],
        scores := none }
    error := none
    isLoading := false }

/-- `SessionStore.createSession` (lines 96-165).  `loggedIn` is
`auth.isLoggedIn()`; `apiOk` is the success flag of `api.createSession`;
`newSid` is the returned session id.  On success the test state is
re-initialized with `currentTask = 1` and `totalTasks = 4` for TOEFL else 3
(line 129).  The websocket connect is wrapped in its own try/catch and its
failure does not change the outcome ("Continue without WebSocket"), and
`loadUserSessions` only touches the cached session list, so neither appears
here.  Error messages from the API are modelled as fixed strings. -/
def createSession (s : Store) (tt : Option TType) (mode : Option String)
    (loggedIn apiOk : Bool) (newSid : String) : StoreStep :=
  let s0 : Store := { s with isLoading := true, error := none }
  if !loggedIn then
    { result := .failure "Authentication required"
      store := { s0 with error := some "Authentication required", isLoading := false }
      calls := [] }
  else if apiOk then
    let ts : TestState :=
      { s0.testState with
          ttype := tt, mode := mode, currentTask := 1,
          totalTasks := if tt = some .toefl then 4 else 3,
          phase := .preparation, recordings := [], scores := none }
    { result := .success
      store := { s0 with currentSession := some newSid, testState := ts,
                         isLoading := false }
      calls := [.createSession] }
  else
    { result := .failure "Failed to create session"
      store := { s0 with error := some "Failed to create session", isLoading := false }
      calls := [.createSession] }

/-- The tail of `submitResponse` from the task-submission call onward
(lines 270-315): submits the structured response for the current task and,
on success, appends a `Recording` built from the upload result (or with no
audio id when no audio file was uploaded). -/
def submitBody (s : Store) (audioId transcription : Option String)
    (submitOk : Bool) (prior : List ApiCall) : StoreStep :=
  let calls := prior ++ [ApiCall.submitTask s.testState.currentTask]
  if submitOk then
    let rcd : Recording :=
      { task := s.testState.currentTask, audioId := audioId,
        transcription := transcription }
    let ts : TestState :=
      { s.testState with recordings := s.testState.recordings ++ [rcd] }
    { result := .success
      store := { s with testState := ts, isLoading := false }
      calls := calls }
  else
    { result := .failure "submit failed"
      store := { s with error := some "submit failed", isLoading := false }
      calls := calls }

/-- `SessionStore.submitResponse` (lines 246-324).  `hasAudio` is whether an
`audioFile` argument was passed (the source guards the upload with
`if (audioFile)`); `uploadOk` is the success flag of `api.uploadAudio`, and
`audioId` / `transcription` its returned fields; `submitOk` is the success
flag of the task-submission endpoint.  A failed upload throws before the
submission call; every failure is caught and returned as
`{success: false, error}`.  Nothing in this method touches `phase` or
`currentTask`. -/
def submitResponse (s : Store) (hasAudio uploadOk : Bool)
    (audioId transcription : String) (submitOk : Bool) : StoreStep :=
  let s1 : Store := { s with isLoading := true }
  match s.currentSession with
  | none =>
      { result := .failure "No active session"
        store := { s1 with error := some "No active session", isLoading := false }
        calls := [] }
  | some _ =>
      if hasAudio then
        if !uploadOk then
          { result := .failure "Audio upload failed"
            store := { s1 with error := some "Audio upload failed", isLoading := false }
            calls := [.uploadAudio] }
        else
          submitBody s1 (some audioId) (some transcription) submitOk [.uploadAudio]
      else
        submitBody s1 none none submitOk []

/-- The body of `startTest` from the task-start API call onward
(lines 213-235): starts the given task (defaulting to the current task) and
on success sets `phase = 'preparation'`.  The websocket
`startConversation` side call does not touch store state. -/
def startTaskBody (s : Store) (taskNumber : Option Nat) (startOk : Bool)
    (prior : List ApiCall) : StoreStep :=
  let task := taskNumber.getD s.testState.currentTask
  let calls := prior ++ [ApiCall.startTask task]
  if startOk then
    let ts : TestState := { s.testState with phase := .preparation }
    { result := .success
      store := { s with testState := ts, isLoading := false }
      calls := calls }
  else
    { result := .failure "start failed"
      store := { s with error := some "start failed", isLoading := false }
      calls := calls }

/-- `SessionStore.startTest` (lines 201-244): creates a session first when
none exists (propagating a creation failure), then starts the requested
task. -/
def startTest (s : Store) (tt : Option TType) (mode : Option String)
    (taskNumber : Option Nat) (loggedIn createOk : Bool) (newSid : String)
    (startOk : Bool) : StoreStep :=
  let s1 : Store := { s with isLoading := true }
  match s.currentSession with
  | some _ => startTaskBody s1 taskNumber startOk []
  | none =>
      let cr := createSession s1 tt mode loggedIn createOk newSid
      match cr.result with
      | .failure m =>
          { result := .failure m
            store := { cr.store with isLoading := false }
            calls := cr.calls }
      | .success => startTaskBody cr.store taskNumber startOk cr.calls

/-- `SessionStore.completeTest` (lines 342-383).  `scoreOk` is the success
flag of the scoring endpoint and `score` its value.  On success the phase
becomes `'completed'`; on failure the state only records the error.  Note
that the method never consults `currentTask` or `totalTasks`. -/
def completeTest (s : Store) (scoreOk : Bool) (score : Nat) : StoreStep :=
  let s1 : Store := { s with isLoading := true }
  match s.currentSession with
  | none =>
      { result := .failure "No active session"
        store := { s1 with error := some "No active session", isLoading := false }
        calls := [] }
  | some _ =>
      if scoreOk then
        let ts : TestState :=
          { s1.testState with scores := some score, phase := .completed }
        { result := .success
          store := { s1 with testState := ts, isLoading := false }
          calls := [.getScore] }
      else
        { result := .failure "score retrieval failed"
          store := { s1 with error := some "score retrieval failed", isLoading := false }
          calls := [.getScore] }

/-- `SessionStore.nextTask` (lines 326-340): below the task cap it
increments `currentTask`, sets the phase back to preparation and starts the
next task; at the cap it calls `completeTest`.  The environment values are
those consumed by the call it delegates to. -/
def nextTask (s : Store) (loggedIn createOk : Bool) (newSid : String)
    (startOk scoreOk : Bool) (score : Nat) : StoreStep :=
  if s.testState.currentTask < s.testState.totalTasks then
    let ts := { s.testState with currentTask := s.testState.currentTask + 1,
                                 phase := Phase.preparation }
    let s1 := { s with testState := ts }
    startTest s1 ts.ttype ts.mode (some ts.currentTask) loggedIn createOk newSid startOk
  else
    completeTest s scoreOk score

/-- One coordinator call in a run, carrying the external outcomes that call
consumes. -/
inductive CoordCall
  | submit (hasAudio uploadOk : Bool) (audioId transcription : String) (submitOk : Bool)
  | next (loggedIn createOk : Bool) (newSid : String) (startOk scoreOk : Bool) (score : Nat)
deriving DecidableEq, Repr

def applyCall (s : Store) : CoordCall → StoreStep
  | .submit hasAudio uploadOk audioId transcription submitOk =>
      submitResponse s hasAudio uploadOk audioId transcription submitOk
  | .next loggedIn createOk newSid startOk scoreOk score =>
      nextTask s loggedIn createOk newSid startOk scoreOk score

/-- A run of the coordinator: applies the calls in order, logging each call
with the result it returned. -/
def runCalls : Store → List CoordCall → Store × List (CoordCall × SResult)
  | s, [] => (s, [])
  | s, c :: cs =>
      let st := applyCall s c
      let r := runCalls st.store cs
      (r.1, (c, st.result) :: r.2)

def CoordCall.isSubmit : CoordCall → Bool
  | .submit .. => true
  | _ => false

def CoordCall.isNext : CoordCall → Bool
  | .next .. => true
  | _ => false

/-- Number of `submitResponse` calls in a run log that returned success. -/
def countSuccessSubmits (log : List (CoordCall × SResult)) : Nat :=
  (log.filter fun p => p.1.isSubmit && p.2.isSuccess).length

/-- Number of `nextTask` calls in a call list. -/
def countNexts (calls : List CoordCall) : Nat :=
  (calls.filter CoordCall.isNext).length

/-- The store right after a successful `createSession` on a fresh store. -/
def initialStore (tt : Option TType) (mode : Option String) (sid : String) : Store :=
  (createSession emptyStore tt mode true true sid).store

/-! ## Concrete states shared by the theorems below -/

/-- A connection whose transport is open but whose handshake has not
completed: `isConnected` is set, `isAuthenticated` is not. -/
def wsConnState : WSState :=
  { socketPresent := true, isConnected := true, isAuthenticated := false,
    reconnectAttempts := 0, sessionId := some "sess-1", userId := none }

/-- A fully authenticated connection. -/
def wsAuthState : WSState :=
  { socketPresent := true, isConnected := true, isAuthenticated := true,
    reconnectAttempts := 0, sessionId := some "sess-1", userId := some "user-1" }

/-- A connection that has lost its transport. -/
def wsDiscState : WSState :=
  { socketPresent := false, isConnected := false, isAuthenticated := false,
    reconnectAttempts := 0, sessionId := some "sess-1", userId := none }

/-- A fresh, never-connected client (the constructor state). -/
def wsFreshState : WSState :=
  { socketPresent := false, isConnected := false, isAuthenticated := false,
    reconnectAttempts := 0, sessionId := none, userId := none }

/-- A disconnected client in the middle of a reconnection sequence, with
three failed attempts counted. -/
def wsRetryState : WSState :=
  { socketPresent := true, isConnected := false, isAuthenticated := false,
    reconnectAttempts := 3, sessionId := some "sess-1", userId := none }

/-- The store right after `createSession('toefl', 'full')` succeeded:
session `sess-1`, `currentTask = 1`, `totalTasks = 4`, no recordings. -/
def toeflStore : Store := initialStore (some .toefl) (some "full") "sess-1"

/-! ## Claim C5 — send transmits only when Authenticated (corrected) -/

/-- Claim C5 counterexample: `send` on a connection that is Connected but not
yet Authenticated transmits the message and returns `true`, refuting "send
transmits only when the connection state is Authenticated".  Indeed,
`authenticate` itself relies on this: it delivers the auth handshake message
through `send` before the connection is Authenticated. -/
theorem c5_counterexample :
    (send wsConnState (OutMsg.ping 0)).1 = true ∧
    wsConnState.isAuthenticated = false ∧
    (send wsConnState (OutMsg.ping 0)).2.1 = [OutMsg.ping 0] := by
  decide

/-- Claim C5, amended: `send(message)` transmits exactly when the connection
is Connected with a socket present (the guard `!this.isConnected ||
!this.socket`), regardless of authentication; in every other state it
returns `false` and writes nothing.  It never throws: `send` is a total
function whose error paths all return the failure flag. -/
theorem c5_send_guard (s : WSState) (m : OutMsg) :
    ((send s m).1 = true ↔ (s.isConnected = true ∧ s.socketPresent = true)) ∧
    ((send s m).1 = false → (send s m).2.1 = []) := by
  rcases s with ⟨sp, ic, ia, ra, sid, uid⟩
  cases ic <;> cases sp <;> simp [send]

/-- Witness for `c5_send_guard` at a concrete Connected, unauthenticated
state. -/
theorem c5_witness : (send wsConnState (OutMsg.ping 1)).1 = true :=
  ((c5_send_guard wsConnState (OutMsg.ping 1)).1).mpr ⟨rfl, rfl⟩

/-! ## Claim C6 — unauthenticated chunks dropped with a warning (corrected) -/

/-- Claim C6 counterexample: with a bound connection that is Connected but
not Authenticated, `handleAudioChunk` transmits the chunk rather than
dropping it; and with no connection bound, the chunk is dropped silently
with no warning recorded.  Both refute the claim that a chunk produced while
the connection is not Authenticated (or unbound) is dropped with a
warning. -/
theorem c6_counterexample :
    (handleAudioChunk (some wsConnState) "chunk-a" 7 "audio/webm").1
      = [OutMsg.audioChunkCapture "current-session" "chunk-a" 7 "audio/webm"] ∧
    wsConnState.isAuthenticated = false ∧
    handleAudioChunk none "chunk-a" 7 "audio/webm" = ([], []) := by
  decide

/-- Claim C6, amended: when no connection is bound the chunk is dropped
silently (no transmission, no buffering, and also no warning); when a
connection is bound but is not Connected, the chunk is dropped and a warning
is recorded by `send`; when a connection is bound and Connected, the chunk
is transmitted regardless of authentication.  The drop is non-fatal:
`handleAudioChunk` is total and never propagates an error to the capture
loop. -/
theorem c6_chunk_forwarding (ws : WSState) (audio : String) (now : Nat)
    (format : String) :
    handleAudioChunk none audio now format = ([], []) ∧
    (ws.isConnected = false ∨ ws.socketPresent = false →
      (handleAudioChunk (some ws) audio now format).1 = [] ∧
      (handleAudioChunk (some ws) audio now format).2 ≠ []) ∧
    (ws.isConnected = true → ws.socketPresent = true →
      (handleAudioChunk (some ws) audio now format).1
        = [OutMsg.audioChunkCapture "current-session" audio now format] ∧
      (handleAudioChunk (some ws) audio now format).2 = []) := by
  rcases ws with ⟨sp, ic, ia, ra, sid, uid⟩
  cases ic <;> cases sp <;> simp [handleAudioChunk, send]

/-- Witness for `c6_chunk_forwarding`: a chunk offered to a disconnected
bound connection is dropped with a warning recorded. -/
theorem c6_witness :
    (handleAudioChunk (some wsDiscState) "chunk-a" 1 "audio/webm").1 = [] ∧
    (handleAudioChunk (some wsDiscState) "chunk-a" 1 "audio/webm").2 ≠ [] :=
  (c6_chunk_forwarding wsDiscState "chunk-a" 1 "audio/webm").2.1 (Or.inl rfl)

/-! ## Claim C3 — auth timeout leaves state Disconnected (corrected) -/

/-- Claim C3 counterexample: when the transport opens, the auth message is
sent and no handshake reply arrives within the 10-second window, `connect`
does fail with the authentication-timeout error, but the socket is never
closed: `isConnected` remains `true`, so the resulting connection state is
Connected, not Disconnected. -/
theorem c3_counterexample :
    (connect wsFreshState "sess-1" "tok" none).1 = ConnectOutcome.authTimeout ∧
    ((connect wsFreshState "sess-1" "tok" none).2.1).isConnected = true ∧
    ((connect wsFreshState "sess-1" "tok" none).2.1).isAuthenticated = false ∧
    specConnStatus (connect wsFreshState "sess-1" "tok" none).2.1 false
      = ConnStatus.connected ∧
    specConnStatus (connect wsFreshState "sess-1" "tok" none).2.1 false
      ≠ ConnStatus.disconnected := by
  decide

/-- Claim C3, amended: for every `connect(sessionId, authToken)` in which the
transport opens, the auth message is sent and no handshake reply arrives
within the 10-second window, `connect` fails with the authentication-timeout
error and no reconnection is scheduled (the timeout path neither closes the
socket nor calls `attemptReconnect`, so the state is not Reconnecting) — but
the connection remains Connected (`isConnected = true`, `isAuthenticated =
false`) rather than returning to Disconnected.  The hypothesis states that
the client is not already authenticated when `connect` is entered, which
holds in every reachable call site (the constructor, `disconnect` and the
`onclose` handler all leave `isAuthenticated = false`). -/
theorem c3_auth_timeout (s : WSState) (sid tok : String)
    (ha : s.isAuthenticated = false) :
    (connect s sid tok none).1 = ConnectOutcome.authTimeout ∧
    ((connect s sid tok none).2.1).isAuthenticated = false ∧
    ((connect s sid tok none).2.1).isConnected = true ∧
    specConnStatus (connect s sid tok none).2.1 false = ConnStatus.connected ∧
    (connect s sid tok none).2.2 = [OutMsg.auth tok (some sid)] := by
  rcases s with ⟨sp, ic, ia, ra, sid0, uid⟩
  simp only at ha
  subst ha
  simp [connect, send, specConnStatus]

/-- Witness for `c3_auth_timeout` at the fresh constructor state. -/
theorem c3_witness :
    (connect wsFreshState "sess-1" "tok" none).1 = ConnectOutcome.authTimeout ∧
    ((connect wsFreshState "sess-1" "tok" none).2.1).isAuthenticated = false ∧
    ((connect wsFreshState "sess-1" "tok" none).2.1).isConnected = true ∧
    specConnStatus (connect wsFreshState "sess-1" "tok" none).2.1 false
      = ConnStatus.connected ∧
    (connect wsFreshState "sess-1" "tok" none).2.2
      = [OutMsg.auth "tok" (some "sess-1")] :=
  c3_auth_timeout wsFreshState "sess-1" "tok" rfl

/-! ## Claim C9 — reconnect counter reset exactly on Authenticated (corrected) -/

/-- Claim C9 counterexample: from a state with `reconnectAttempts = 3`, a
`connect` whose transport opens but whose handshake then times out (so the
connection never reaches Authenticated) still resets `reconnectAttempts` to
0 — the reset lives in the `onopen` handler, refuting "reset exactly when the
state reaches Authenticated". -/
theorem c9_counterexample :
    wsRetryState.reconnectAttempts = 3 ∧
    ((connect wsRetryState "sess-1" "tok" none).2.1).reconnectAttempts = 0 ∧
    ((connect wsRetryState "sess-1" "tok" none).2.1).isAuthenticated = false := by
  decide

/-- Claim C9, amended: `reconnectAttempts` is reset to 0 exactly when the
transport reaches Connected (the `onopen` handler), before the handshake
completes and regardless of its outcome; a clean `disconnect` and the
`onclose` handler leave the counter unchanged, and `attemptReconnect` only
increments it. -/
theorem c9_reset_on_open (s : WSState) (sid tok : String)
    (reply : Option AuthReply) (wasClean : Bool) (base : Nat) :
    ((connect s sid tok reply).2.1).reconnectAttempts = 0 ∧
    (disconnect s).reconnectAttempts = s.reconnectAttempts ∧
    ((onCloseStep s wasClean).1).reconnectAttempts = s.reconnectAttempts ∧
    ((attemptReconnectStep s base).1).reconnectAttempts
      = s.reconnectAttempts + 1 := by
    refine ⟨?_, rfl, rfl, rfl⟩
    rcases reply with _ | r
    · rfl
    · cases r <;> rfl

/-! ## Claim C10 — every registered handler runs, exceptions contained (confirmed) -/

/-- Each listener of a list that increments the invocation counter is run
exactly once by the `forEach` loop with per-listener try/catch. -/
theorem foldl_runListener_count (hs : List (Nat → Nat × Bool)) :
    ∀ st : Nat, (∀ h ∈ hs, ∀ n, (h n).1 = n + 1) →
      hs.foldl runListener st = st + hs.length := by
  induction hs with
  | nil => intro st _; simp
  | cons h t ih =>
      intro st hall
      have h1 : (h st).1 = st + 1 := hall h (by simp) st
      calc (h :: t).foldl runListener st
          = t.foldl runListener (runListener st h) := rfl
        _ = t.foldl runListener (st + 1) := by rw [runListener, h1]
        _ = st + 1 + t.length := ih (st + 1) (fun g hg n => hall g (by simp [hg]) n)
        _ = st + (h :: t).length := by simp; omega

/-- Counting helper for `notifyListeners` callbacks. -/
theorem foldl_notify_count (ls : List (String → Nat → Nat × Bool)) (event : String) :
    ∀ st : Nat, (∀ l ∈ ls, ∀ e n, (l e n).1 = n + 1) →
      ls.foldl (fun acc cb => (cb event acc).1) st = st + ls.length := by
  induction ls with
  | nil => intro st _; simp
  | cons l t ih =>
      intro st hall
      have h1 : (l event st).1 = st + 1 := hall l (by simp) event st
      calc (l :: t).foldl (fun acc cb => (cb event acc).1) st
          = t.foldl (fun acc cb => (cb event acc).1) (l event st).1 := rfl
        _ = t.foldl (fun acc cb => (cb event acc).1) (st + 1) := by rw [h1]
        _ = st + 1 + t.length := ih (st + 1) (fun g hg e n => hall g (by simp [hg]) e n)
        _ = st + (l :: t).length := by simp; omega

/-- Claim C10: emitting an event invokes every registered handler, even when
an earlier handler throws; a handler's exception is caught inside the loop
and never propagates to the emitter or prevents later handlers from running.
Handlers are modelled as counter increments that may additionally throw (the
`Bool`): both `VoiceAgentWebSocket.emit` and `SessionStore.notifyListeners`
apply all `n` registered handlers, so the counter ends at exactly `start +
n` whatever the throw flags are, and both functions are total (no exception
escapes). -/
theorem c10_handlers_all_run (hs : List (Nat → Nat × Bool))
    (ls : List (String → Nat → Nat × Bool)) (e1 e2 : String) (st1 st2 : Nat)
    (hall : ∀ h ∈ hs, ∀ n, (h n).1 = n + 1)
    (lall : ∀ l ∈ ls, ∀ e n, (l e n).1 = n + 1) :
    emit [(e1, hs)] e1 st1 = st1 + hs.length ∧
    notifyListeners ls e2 st2 = st2 + ls.length := by
  constructor
  · have hl : ([(e1, hs)]).lookup e1 = some hs := by simp [List.lookup]
    rw [emit]
    rw [hl]
    exact foldl_runListener_count hs st1 hall
  · exact foldl_notify_count ls e2 st2 lall

/-- Witness for `c10_handlers_all_run`: two websocket listeners of which the
first throws, and one store listener that throws; every handler still runs. -/
theorem c10_witness :
    emit [("error", [fun n => (n + 1, true), fun n => (n + 1, false)])] "error" 0 = 2 ∧
    notifyListeners [fun _ n => (n + 1, true)] "sessionCreated" 5 = 6 := by
  have h := c10_handlers_all_run
      [fun n => (n + 1, true), fun n => (n + 1, false)]
      [fun _ n => (n + 1, true)] "error" "sessionCreated" 0 5
      (by
        intro h hm n
        rcases List.mem_cons.mp hm with rfl | hm2
        · rfl
        · rcases List.mem_cons.mp hm2 with rfl | hm3
          · rfl
          · cases hm3)
      (by
        intro l hm e n
        rcases List.mem_cons.mp hm with rfl | hm2
        · rfl
        · cases hm2)
  exact ⟨h.1.trans rfl, h.2.trans rfl⟩

/-! ## Claim C2 — N chunk messages with strictly increasing chunk ids (corrected) -/

/-- Claim C2 counterexample: on an Authenticated connection, two chunks
whose `Date.now()` values coincide (the same millisecond) get the same
defaulted `chunk_id` (`chunk_42`), so the sequence of chunk identifiers is
not strictly increasing — the source derives the default id from the clock,
not from a per-recording counter. -/
theorem c2_counterexample :
    (sendAudioChunk wsAuthState "a1" none 42).2.1
      = [OutMsg.audioChunkWs "chunk_42" "a1" 42] ∧
    (sendAudioChunk wsAuthState "a2" none 42).2.1
      = [OutMsg.audioChunkWs "chunk_42" "a2" 42] ∧
    ¬ (((sendAudioChunk wsAuthState "a1" none 42).2.1
          ++ (sendAudioChunk wsAuthState "a2" none 42).2.1).map msgChunkId).Pairwise
        (· ≠ ·) := by
  decide

/-- Claim C2, amended: for a sequence of N chunks produced while the bound
connection is Authenticated (hence Connected with a live socket), exactly N
`audio_chunk` messages are sent, in capture order, each carrying its chunk's
payload and capture time — but the capture-pipeline messages carry no chunk
identifier at all (`msgChunkId` is `none` for every one of them), and the
only chunk identifiers the client ever generates (`sendAudioChunk`
defaults) are clock-derived rather than strictly increasing. -/
theorem c2_capture_stream (s : WSState) (chunks : List CapturedChunk)
    (ha : s.isAuthenticated = true) (hc : s.isConnected = true)
    (hp : s.socketPresent = true) :
    specConnStatus s false = ConnStatus.authenticated ∧
    (processChunks (some s) chunks).1
      = chunks.map (fun c =>
          OutMsg.audioChunkCapture "current-session" c.audio c.capturedAt c.format) ∧
    (processChunks (some s) chunks).1.length = chunks.length ∧
    (processChunks (some s) chunks).2 = [] ∧
    ∀ m ∈ (processChunks (some s) chunks).1, msgChunkId m = none := by
  have key : (processChunks (some s) chunks).1
      = chunks.map (fun c =>
          OutMsg.audioChunkCapture "current-session" c.audio c.capturedAt c.format) ∧
      (processChunks (some s) chunks).2 = [] := by
    induction chunks with
    | nil => exact ⟨rfl, rfl⟩
    | cons c cs ih =>
        simp [processChunks, handleAudioChunk, send, hc, hp, ih.1, ih.2]
  refine ⟨by simp [specConnStatus, ha], key.1, ?_, key.2, ?_⟩
  · rw [key.1, List.length_map]
  · intro m hm
    rw [key.1] at hm
    obtain ⟨c, _, rfl⟩ := List.mem_map.mp hm
    rfl

/-- Witness for `c2_capture_stream`: two concrete chunks against the
authenticated state produce exactly two messages and no warnings. -/
theorem c2_witness :
    (processChunks (some wsAuthState)
        [⟨"a1", 10, "audio/webm"⟩, ⟨"a2", 11, "audio/webm"⟩]).1.length = 2 ∧
    (processChunks (some wsAuthState)
        [⟨"a1", 10, "audio/webm"⟩, ⟨"a2", 11, "audio/webm"⟩]).2 = [] :=
  ⟨((c2_capture_stream wsAuthState
      [⟨"a1", 10, "audio/webm"⟩, ⟨"a2", 11, "audio/webm"⟩] rfl rfl rfl).2.2.1).trans rfl,
   (c2_capture_stream wsAuthState
      [⟨"a1", 10, "audio/webm"⟩, ⟨"a2", 11, "audio/webm"⟩] rfl rfl rfl).2.2.2.1⟩

/-! ## Claim C4 — reconnection cap, backoff schedule, terminal event (confirmed) -/

/-- Once the failure counter has reached the cap, no further round is
entered. -/
theorem reconnectSeq_stop (base f : Nat) :
    reconnectSeq base 5 f = ([], 0) := by
  cases f <;> simp [reconnectSeq, MAX_RECONNECT_ATTEMPTS]

/-- Claim C4: for every sequence of consecutive reconnection failures
(`f` of them, every attempt beyond them succeeding), starting from a
non-clean close at `reconnectAttempts = 0`: at most 5 reconnection attempts
are made; the delay scheduled before the i-th reconnect (1-based, i.e.
before overall attempt i+1 counting the initial connect) is
`baseDelay * 2 ^ (i-1)`, so the first reconnect is scheduled at
`baseDelay * 1`; `reconnectionFailed` is emitted exactly once when all 5
attempts fail and never otherwise; and a non-clean close triggers a
reconnect exactly while the counter is below the cap of 5. -/
theorem c4_reconnect_backoff (base f : Nat) (s : WSState) :
    (reconnectSeq base 0 f).1.length ≤ MAX_RECONNECT_ATTEMPTS ∧
    (reconnectSeq base 0 f).1
      = (List.range (min (f + 1) MAX_RECONNECT_ATTEMPTS)).map (fun i => base * 2 ^ i) ∧
    (reconnectSeq base 0 f).2 = (if MAX_RECONNECT_ATTEMPTS ≤ f then 1 else 0) ∧
    (onCloseStep s false).2 = decide (s.reconnectAttempts < MAX_RECONNECT_ATTEMPTS) := by
  have main : (reconnectSeq base 0 f).1
      = (List.range (min (f + 1) MAX_RECONNECT_ATTEMPTS)).map (fun i => base * 2 ^ i) ∧
      (reconnectSeq base 0 f).2 = (if MAX_RECONNECT_ATTEMPTS ≤ f then 1 else 0) := by
    rcases Nat.lt_or_ge f 5 with hf | hf
    · interval_cases f <;>
        simp [reconnectSeq, MAX_RECONNECT_ATTEMPTS, List.range_succ]
    · obtain ⟨k, rfl⟩ : ∃ k, f = ((((k + 1) + 1) + 1) + 1) + 1 :=
        ⟨f - 5, by omega⟩
      have h5 : min (((((k + 1) + 1) + 1) + 1) + 1 + 1) MAX_RECONNECT_ATTEMPTS = 5 := by
        unfold MAX_RECONNECT_ATTEMPTS; omega
      rw [h5]
      constructor
      · simp [reconnectSeq, MAX_RECONNECT_ATTEMPTS, reconnectSeq_stop,
          List.range_succ]
      · simp [reconnectSeq, MAX_RECONNECT_ATTEMPTS, reconnectSeq_stop]
  refine ⟨?_, main.1, main.2, by simp [onCloseStep]⟩
  rw [main.1, List.length_map, List.length_range]
  exact min_le_right _ _

/-! ## Claim C8 — completeTest only completes at the last task (corrected) -/

/-- Claim C8 counterexample: `completeTest` invoked directly on a freshly
created TOEFL session (`currentTask = 1 < totalTasks = 4`) still sets the
phase to Completed as soon as score retrieval succeeds — the method never
consults `currentTask`, refuting "completeTest invoked with
currentTaskIndex < totalTasks never sets phase to Completed". -/
theorem c8_counterexample :
    toeflStore.testState.currentTask < toeflStore.testState.totalTasks ∧
    (completeTest toeflStore true 90).store.testState.phase = Phase.completed ∧
    (completeTest toeflStore true 90).result = SResult.success := by
  decide

/-- Claim C8, amended: `completeTest` itself performs no index check — with
an active session it sets the phase to Completed exactly when score
retrieval succeeds, whatever `currentTask` is, and on a failed retrieval or
a missing session the phase is unchanged.  The index guard lives only in
`nextTask`: invoked with `currentTaskIndex < totalTasks`, `nextTask` never
reaches `completeTest` (no scoring call is made) and leaves the phase in
Preparation, not Completed. -/
theorem c8_complete_guard (s : Store) (scoreOk : Bool) (score : Nat)
    (loggedIn createOk : Bool) (newSid : String) (startOk : Bool) :
    (s.currentSession ≠ none → scoreOk = true →
      (completeTest s scoreOk score).store.testState.phase = Phase.completed) ∧
    (scoreOk = false →
      (completeTest s scoreOk score).store.testState.phase = s.testState.phase) ∧
    (s.currentSession = none →
      (completeTest s scoreOk score).store.testState.phase = s.testState.phase) ∧
    (s.testState.currentTask < s.testState.totalTasks →
      ApiCall.getScore ∉ (nextTask s loggedIn createOk newSid startOk scoreOk score).calls ∧
      (nextTask s loggedIn createOk newSid startOk scoreOk score).store.testState.phase
        = Phase.preparation) := by
  refine ⟨?_, ?_, ?_, ?_⟩
  · intro hs hok
    rcases hcs : s.currentSession with _ | sid
    · exact absurd hcs hs
    · subst hok; simp [completeTest, hcs]
  · intro h0; subst h0
    rcases hcs : s.currentSession with _ | sid <;> simp [completeTest, hcs]
  · intro hn
    cases scoreOk <;> simp [completeTest, hn]
  · intro hlt
    rcases hcs : s.currentSession with _ | sid <;>
      cases loggedIn <;> cases createOk <;> cases startOk <;>
        simp [nextTask, hlt, startTest, startTaskBody, createSession, completeTest, hcs]

/-- Witness for `c8_complete_guard`: a failed score retrieval leaves the
phase of the fresh TOEFL store unchanged, and `nextTask` below the task cap
never issues a scoring call. -/
theorem c8_witness :
    (completeTest toeflStore false 0).store.testState.phase
      = toeflStore.testState.phase ∧
    ApiCall.getScore ∉ (nextTask toeflStore true true "sess-2" true false 0).calls :=
  ⟨(c8_complete_guard toeflStore false 0 true true "sess-2" true).2.1 rfl,
   ((c8_complete_guard toeflStore false 0 true true "sess-2" true).2.2.2 (by decide)).1⟩

/-! ## Claim C7 — submission-path failures: synchronous, no retry, phase kept (confirmed) -/

/-- Claim C7: every failing submission-path call returns its error
synchronously as the call's result, performs each external call at most once
(the recorded traces are the literal one-shot call lists — no automatic
retry), and leaves the coordinator's phase and recordings unchanged: a
failed audio upload aborts `submitResponse` after the single upload call, a
failed task submission aborts it after one upload and one submission call,
and a failed score retrieval aborts `completeTest` after the single scoring
call with the phase exactly as it was. -/
theorem c7_no_retry (s : Store) (sid aid tr : String) (score : Nat)
    (hs : s.currentSession = some sid) :
    ((submitResponse s true false aid tr true).result
        = SResult.failure "Audio upload failed" ∧
      (submitResponse s true false aid tr true).store.testState.phase
        = s.testState.phase ∧
      (submitResponse s true false aid tr true).store.testState.recordings
        = s.testState.recordings ∧
      (submitResponse s true false aid tr true).calls = [ApiCall.uploadAudio]) ∧
    ((submitResponse s true true aid tr false).result
        = SResult.failure "submit failed" ∧
      (submitResponse s true true aid tr false).store.testState.phase
        = s.testState.phase ∧
      (submitResponse s true true aid tr false).store.testState.recordings
        = s.testState.recordings ∧
      (submitResponse s true true aid tr false).calls
        = [ApiCall.uploadAudio, ApiCall.submitTask s.testState.currentTask]) ∧
    ((completeTest s false score).result
        = SResult.failure "score retrieval failed" ∧
      (completeTest s false score).store.testState.phase = s.testState.phase ∧
      (completeTest s false score).store.testState.recordings
        = s.testState.recordings ∧
      (completeTest s false score).calls = [ApiCall.getScore]) := by
  refine ⟨?_, ?_, ?_⟩ <;>
    simp [submitResponse, submitBody, completeTest, hs]

/-- Witness for `c7_no_retry` on the fresh TOEFL store. -/
theorem c7_witness :
    (submitResponse toeflStore true false "audio-1" "tr-1" true).store.testState.phase
      = toeflStore.testState.phase ∧
    (completeTest toeflStore false 0).calls = [ApiCall.getScore] :=
  ⟨(c7_no_retry toeflStore "sess-1" "audio-1" "tr-1" 0 (by decide)).1.2.1,
   (c7_no_retry toeflStore "sess-1" "audio-1" "tr-1" 0 (by decide)).2.2.2.2.2⟩

/-! ## Claim C1 — recording count, task index, append condition (corrected) -/

/-- Unfolding lemma for the successful-submit count of a run log. -/
theorem countSuccessSubmits_cons (c : CoordCall) (r : SResult)
    (log : List (CoordCall × SResult)) :
    countSuccessSubmits ((c, r) :: log)
      = (if c.isSubmit && r.isSuccess then 1 else 0) + countSuccessSubmits log := by
  simp only [countSuccessSubmits, List.filter_cons]
  cases h : c.isSubmit && r.isSuccess
  · simp [h]
  · simp [h]
    omega

/-- Unfolding lemma for the `nextTask` count of a call list. -/
theorem countNexts_cons (c : CoordCall) (cs : List CoordCall) :
    countNexts (c :: cs) = (if c.isNext then 1 else 0) + countNexts cs := by
  simp only [countNexts, List.filter_cons]
  cases h : c.isNext
  · simp [h]
  · simp [h]
    omega

/-- Effect of a single coordinator call on the run invariant: the session is
preserved, `totalTasks` never changes, the recording count grows by one
exactly on a successful `submitResponse`, and `currentTask` is incremented
exactly by a `nextTask` call made below the task cap. -/
theorem applyCall_step (s : Store) (c : CoordCall) (sid : String)
    (hs : s.currentSession = some sid) :
    (applyCall s c).store.currentSession = some sid ∧
    (applyCall s c).store.testState.totalTasks = s.testState.totalTasks ∧
    (applyCall s c).store.testState.recordings.length
      = s.testState.recordings.length
        + (if c.isSubmit && ((applyCall s c).result).isSuccess then 1 else 0) ∧
    (applyCall s c).store.testState.currentTask
      = (if c.isNext = true ∧ s.testState.currentTask < s.testState.totalTasks
         then s.testState.currentTask + 1 else s.testState.currentTask) := by
  cases c with
  | submit hasAudio uploadOk aid tr submitOk =>
      cases hasAudio <;> cases uploadOk <;> cases submitOk <;>
        simp [applyCall, submitResponse, submitBody, hs, CoordCall.isSubmit,
          CoordCall.isNext, SResult.isSuccess]
  | next loggedIn createOk newSid startOk scoreOk score =>
      by_cases hlt : s.testState.currentTask < s.testState.totalTasks
      · cases startOk <;>
          simp [applyCall, nextTask, hlt, startTest, startTaskBody, hs,
            CoordCall.isSubmit, CoordCall.isNext, SResult.isSuccess]
      · cases scoreOk <;>
          simp [applyCall, nextTask, hlt, completeTest, hs,
            CoordCall.isSubmit, CoordCall.isNext, SResult.isSuccess]

/-- Run invariant: over any run of coordinator calls from a state with an
active session, the session is kept, `totalTasks` is constant, the number of
recordings grows by exactly the number of successful `submitResponse` calls
in the log, and (while the task index starts within bounds) the task index
advances by one per `nextTask` call, saturating at `totalTasks`. -/
theorem runCalls_inv (sid : String) :
    ∀ (calls : List CoordCall) (s : Store), s.currentSession = some sid →
      (runCalls s calls).1.currentSession = some sid ∧
      (runCalls s calls).1.testState.totalTasks = s.testState.totalTasks ∧
      (runCalls s calls).1.testState.recordings.length
        = s.testState.recordings.length + countSuccessSubmits (runCalls s calls).2 ∧
      (s.testState.currentTask ≤ s.testState.totalTasks →
        (runCalls s calls).1.testState.currentTask
          = min (s.testState.currentTask + countNexts calls) s.testState.totalTasks) := by
  intro calls
  induction calls with
  | nil =>
      intro s hs
      refine ⟨hs, rfl, by simp [runCalls, countSuccessSubmits], ?_⟩
      intro hle
      simp only [runCalls, countNexts, List.filter_nil, List.length_nil]
      omega
  | cons c cs ih =>
      intro s hs
      have st := applyCall_step s c sid hs
      have ihr := ih (applyCall s c).store st.1
      have e1 : (runCalls s (c :: cs)).1 = (runCalls (applyCall s c).store cs).1 := rfl
      have e2 : (runCalls s (c :: cs)).2
          = (c, (applyCall s c).result) :: (runCalls (applyCall s c).store cs).2 := rfl
      rw [e1, e2]
      refine ⟨ihr.1, ihr.2.1.trans st.2.1, ?_, ?_⟩
      · have h1 := ihr.2.2.1
        have h2 := st.2.2.1
        rw [countSuccessSubmits_cons]
        set e := (if c.isSubmit && ((applyCall s c).result).isSuccess then 1 else 0)
          with he
        omega
      · intro hle
        have hle2 : (applyCall s c).store.testState.currentTask
            ≤ (applyCall s c).store.testState.totalTasks := by
          rw [st.2.2.2, st.2.1]
          split_ifs with h
          · omega
          · omega
        have h4 := ihr.2.2.2 hle2
        rw [h4, st.2.2.2, st.2.1, countNexts_cons]
        by_cases hni : c.isNext = true
        · by_cases hl : s.testState.currentTask < s.testState.totalTasks
          · rw [if_pos ⟨hni, hl⟩, if_pos hni]
            omega
          · rw [if_neg (fun hh => hl hh.2), if_pos hni]
            omega
        · rw [if_neg (fun hh => hni hh.1), if_neg hni]
          omega

/-- Fields of the store produced by a successful `createSession` on a fresh
store. -/
theorem initialStore_spec (tt : Option TType) (mode : Option String) (sid : String) :
    (initialStore tt mode sid).currentSession = some sid ∧
    (initialStore tt mode sid).testState.recordings = [] ∧
    (initialStore tt mode sid).testState.currentTask = 1 ∧
    (initialStore tt mode sid).testState.totalTasks
      = (if tt = some TType.toefl then 4 else 3) := by
  simp [initialStore, createSession, emptyStore]

/-- Claim C1 counterexample: `submitResponse` called without an audio file
(the source's `if (audioFile)` guard skips the upload entirely) appends a
Recording as soon as the task submission succeeds — the call returns success,
the recordings list grows by one, and no audio-upload call was ever made, so
"a Recording is appended only when both the audio upload and the task
submission succeed" fails. -/
theorem c1_counterexample :
    (submitResponse toeflStore false false "a1" "t1" true).result = SResult.success ∧
    (submitResponse toeflStore false false "a1" "t1" true).store.testState.recordings.length
      = toeflStore.testState.recordings.length + 1 ∧
    ApiCall.uploadAudio ∉ (submitResponse toeflStore false false "a1" "t1" true).calls := by
  decide

/-- Claim C1, amended: in every run of the coordinator from a freshly
created session, after k `submitResponse` calls that returned success the
recordings list has length exactly k (whatever other calls are
interleaved); after k `nextTask` calls with k < totalTasks the current task
index equals 1 + k; and a Recording is appended exactly when the task
submission succeeds and any *provided* audio upload succeeds — a call with
no audio file appends on submission success alone, without an upload. -/
theorem c1_run_accounting (tt : Option TType) (mode : Option String)
    (sid sid2 : String) (calls : List CoordCall) (s1 : Store)
    (hasAudio uploadOk : Bool) (aid tr : String) (submitOk : Bool)
    (hs1 : s1.currentSession = some sid2) :
    (runCalls (initialStore tt mode sid) calls).1.testState.recordings.length
      = countSuccessSubmits (runCalls (initialStore tt mode sid) calls).2 ∧
    (countNexts calls < (initialStore tt mode sid).testState.totalTasks →
      (runCalls (initialStore tt mode sid) calls).1.testState.currentTask
        = 1 + countNexts calls) ∧
    ((submitResponse s1 hasAudio uploadOk aid tr submitOk).store.testState.recordings.length
        = s1.testState.recordings.length + 1
      ↔ (submitOk = true ∧ (hasAudio = true → uploadOk = true))) := by
  obtain ⟨h1, h2, h3, h4⟩ := initialStore_spec tt mode sid
  obtain ⟨r1, r2, r3, r4⟩ := runCalls_inv sid calls (initialStore tt mode sid) h1
  refine ⟨?_, ?_, ?_⟩
  · rw [r3, h2]
    simp
  · intro hk
    have hle : (initialStore tt mode sid).testState.currentTask
        ≤ (initialStore tt mode sid).testState.totalTasks := by
      rw [h3, h4]
      split_ifs <;> omega
    have hmin := r4 hle
    rw [h3] at hmin
    rw [hmin]
    omega
  · cases hasAudio <;> cases uploadOk <;> cases submitOk <;>
      simp [submitResponse, submitBody, hs1]

/-- Witness for `c1_run_accounting`: a concrete run (one successful submit,
one `nextTask`) reaches task 2, and a concrete successful submit with audio
grows the recordings list by one. -/
theorem c1_witness :
    (runCalls (initialStore (some TType.toefl) (some "practice") "sess-9")
        [CoordCall.submit true true "a1" "t1" true,
         CoordCall.next true true "sess-n" true true 0]).1.testState.currentTask = 2 ∧
    (submitResponse toeflStore true true "a1" "t1" true).store.testState.recordings.length
      = toeflStore.testState.recordings.length + 1 := by
  have h := c1_run_accounting (some TType.toefl) (some "practice") "sess-9" "sess-1"
      [CoordCall.submit true true "a1" "t1" true,
       CoordCall.next true true "sess-n" true true 0]
      toeflStore true true "a1" "t1" true (by decide)
  exact ⟨(h.2.1 (by decide)).trans (by decide), h.2.2.mpr (by decide)⟩
